import Mathlib

/-!
Verification of the span-level NER evaluation script (`src/main.py`).

The script's core (`evaluate`) matches predicted character-offset spans
against gold spans by exact triple equality, builds `y_true`/`y_pred`
label streams for a confusion matrix, and derives per-label TP/FP/FN
and precision/recall/F1 figures.  Below, the pure data transformations
of `evaluate` (and `load_spans`) are embedded as Lean functions; the
printing side effects are represented by the data they would print.
-/

namespace NerEval

/-- A span is a triple `(start, end, label)` of half-open character
offsets plus an entity label, exactly as produced by `load_spans` and
by the spaCy entity iterator in `evaluate`. -/
abbrev Span := Nat × Nat × String

/-- The label component of a span triple. -/
def label (s : Span) : String := s.2.2

/-- `load_spans`: the script converts each JSON `entities` triple to a
tuple with no validation whatsoever (`[tuple(triple) for triple in
data["entities"]]`); on span triples this is the identity. -/
def load_spans (entities : List Span) : List Span := entities

/-- Modelled from the spec: §7 requires malformed gold records
(offsets outside `[0, len(text)]`, `start >= end`) to be rejected as a
data-validation failure before matching begins.  No such check exists
in `src/main.py`; this predicate states the spec's validity condition
for one record against a text of length `len`. -/
def validSpan (len : Nat) (s : Span) : Bool :=
  s.1 < s.2.1 && s.2.1 ≤ len

/-- Modelled from the spec: a validating loader per §7 — it reports a
failure (`none`) if any record is malformed, and never clamps or drops
an individual record. -/
def load_spans_spec (len : Nat) (entities : List Span) : Option (List Span) :=
  if entities.all (validSpan len) then some entities else none

/-- Step 2 of `evaluate`: each prediction's status.  The source checks
`(p_s, p_e, p_lbl) in gold_set` where `gold_set = {(s,e,lbl) for … in
gold_spans}`, i.e. plain membership of the prediction triple in the
gold list. -/
def pred_status (gold pred : List Span) : List String :=
  pred.map (fun p => if p ∈ gold then "TP" else "FP")

/-- The `fn_entities` list comprehension of `evaluate`.  The source
filters `gold_spans` by
`(g) not in gold_set.intersection(gold_set) and (g) not in pred`;
`gold_set.intersection(gold_set)` is `gold_set` itself, so the first
conjunct tests non-membership of a gold triple in the gold set. -/
def fn_entities (gold pred : List Span) : List Span :=
  gold.filter (fun g => decide (g ∉ gold ∧ g ∉ pred))

/-- Step 4 of `evaluate` builds `y_true`/`y_pred` in lock step; we
embed the paired stream.  For each gold span (in order) the source
emits `(g_lbl, g_lbl)` when the triple is in
`gold_set.intersection(pred_set)` and `(g_lbl, "O")` otherwise; then
for each prediction whose index is not in `matched_preds` — exactly
the predictions whose triple is not in `gold_set` — it emits
`("O", p_lbl)`. -/
def label_pairs (gold pred : List Span) : List (String × String) :=
  gold.map (fun g => if g ∈ gold ∧ g ∈ pred then (label g, label g) else (label g, "O"))
    ++ (pred.filter (fun p => decide (p ∉ gold))).map (fun p => ("O", label p))

/-- The `y_true` list of `evaluate`. -/
def y_true (gold pred : List Span) : List String :=
  (label_pairs gold pred).map Prod.fst

/-- The `y_pred` list of `evaluate`. -/
def y_pred (gold pred : List Span) : List String :=
  (label_pairs gold pred).map Prod.snd

/-- `sorted({l for l in y_true + y_pred if l != "O"})`: the sorted,
duplicate-free list of real labels. -/
def real_labels (gold pred : List Span) : List String :=
  List.insertionSort (· ≤ ·) ((y_true gold pred ++ y_pred gold pred).filter (fun l => l != "O")).dedup

/-- `labels = sorted({…}) + ["O"]`: the axis of the confusion matrix,
with the sentinel last. -/
def labels (gold pred : List Span) : List String :=
  real_labels gold pred ++ ["O"]

/-- One cell of the sklearn confusion matrix: the number of positions
with true label `t` and predicted label `q`.  (The labels on the axes
are pairwise distinct, so indexing by label value is indexing by
position.) -/
def cm_cell (gold pred : List Span) (t q : String) : Nat :=
  (label_pairs gold pred).countP (fun r => decide (r.1 = t ∧ r.2 = q))

/-- `cm[:, i].sum()`: the column sum of the confusion matrix for
predicted label `q`, over all rows of the labels axis. -/
def col_sum (gold pred : List Span) (q : String) : Nat :=
  ((labels gold pred).map (fun t => cm_cell gold pred t q)).sum

/-- `cm[i, :].sum()`: the row sum of the confusion matrix for true
label `t`, over all columns of the labels axis. -/
def row_sum (gold pred : List Span) (t : String) : Nat :=
  ((labels gold pred).map (fun q => cm_cell gold pred t q)).sum

/-- The per-label `TP / FP / FN` summary table of step 5: iterate over
`labels`, skip the sentinel `"O"`, and take `TP = cm[i,i]`,
`FP = cm[:,i].sum() - TP`, `FN = cm[i,:].sum() - TP`. -/
def summary (gold pred : List Span) : List (String × Nat × Nat × Nat) :=
  (labels gold pred).filterMap (fun l =>
    if l = "O" then none
    else some (l, cm_cell gold pred l l,
                  col_sum gold pred l - cm_cell gold pred l l,
                  row_sum gold pred l - cm_cell gold pred l l))

/-- Guarded precision as used by `classification_report(…,
zero_division=0)`: `TP/(TP+FP)`, and `0` when the denominator is `0`. -/
def prec_frac (tp fp : Nat) : ℚ :=
  if tp + fp = 0 then 0 else (tp : ℚ) / ((tp : ℚ) + (fp : ℚ))

/-- Guarded recall: `TP/(TP+FN)`, and `0` when the denominator is `0`. -/
def rec_frac (tp fn : Nat) : ℚ :=
  if tp + fn = 0 then 0 else (tp : ℚ) / ((tp : ℚ) + (fn : ℚ))

/-- Guarded F1: `2·P·R/(P+R)`, and `0` when `P + R = 0`. -/
def f1_frac (p r : ℚ) : ℚ :=
  if p + r = 0 then 0 else 2 * p * r / (p + r)

/-- The derived per-label precision/recall/F1 rows of the
classification report, for the real labels. -/
def per_label_prf (gold pred : List Span) : List (String × ℚ × ℚ × ℚ) :=
  (real_labels gold pred).map (fun l =>
    let tp := cm_cell gold pred l l
    let fp := col_sum gold pred l - tp
    let fn := row_sum gold pred l - tp
    (l, prec_frac tp fp, rec_frac tp fn, f1_frac (prec_frac tp fp) (rec_frac tp fn)))

/-- Micro-averaged precision/recall/F1: pool TP/FP/FN over the real
labels before dividing (guarded as above). -/
def micro_prf (gold pred : List Span) : ℚ × ℚ × ℚ :=
  let tp := ((real_labels gold pred).map (fun l => cm_cell gold pred l l)).sum
  let fp := ((real_labels gold pred).map (fun l => col_sum gold pred l - cm_cell gold pred l l)).sum
  let fn := ((real_labels gold pred).map (fun l => row_sum gold pred l - cm_cell gold pred l l)).sum
  (prec_frac tp fp, rec_frac tp fn, f1_frac (prec_frac tp fp) (rec_frac tp fn))

/-- The unweighted-mean (macro) averaged precision/recall/F1 row of
the classification report.  When there is no real label the report's
average is NaN — `np.average` over the empty per-label array, which
the `zero_division=0` guard does not cover — modelled here as `none`. -/
def avg_prf (gold pred : List Span) : Option (ℚ × ℚ × ℚ) :=
  let n := (real_labels gold pred).length
  if n = 0 then none
  else some (((per_label_prf gold pred).map (fun r => r.2.1)).sum / n,
             ((per_label_prf gold pred).map (fun r => r.2.2.1)).sum / n,
             ((per_label_prf gold pred).map (fun r => r.2.2.2)).sum / n)

/-!  ## Helper lemmas  -/

/-- The `fn_entities` comprehension filters on membership in
`gold_set.intersection(gold_set)`, which every gold span satisfies, so
the list of "missed" entities is empty for every input. -/
theorem fn_entities_eq_nil (gold pred : List Span) : fn_entities gold pred = [] := by
  rw [fn_entities, List.filter_eq_nil_iff]
  intro g hg
  simp [hg]

/-- With an empty gold set, no prediction is a member, so every
prediction's status defaults to `"FP"`. -/
theorem pred_status_nil_gold (pred : List Span) :
    pred_status [] pred = pred.map (fun _ => "FP") := by
  simp [pred_status]

/-- Every member of the sorted real-label axis differs from the
sentinel, because the labels were filtered before sorting. -/
theorem mem_real_labels_ne_sentinel {gold pred : List Span} {l : String}
    (h : l ∈ real_labels gold pred) : l ≠ "O" := by
  rw [real_labels] at h
  have h' := (List.perm_insertionSort (· ≤ ·) _).subset h
  rw [List.mem_dedup, List.mem_filter] at h'
  simpa using h'.2

/-- Evaluating the summary's `filterMap` over a label list with no
sentinel member is a plain `map`. -/
theorem filterMap_skip_sentinel (f : String → String × Nat × Nat × Nat) :
    ∀ L : List String, (∀ l ∈ L, l ≠ "O") →
      (L.filterMap (fun l => if l = "O" then none else some (f l))) = L.map f := by
  intro L
  induction L with
  | nil => intro _; rfl
  | cons a L ih =>
      intro h
      have ha : a ≠ "O" := h a (by simp)
      simp only [List.filterMap_cons, List.map_cons, if_neg ha]
      rw [ih fun l hl => h l (by simp [hl])]

/-- The per-label summary lists exactly the real labels, in axis
order, each with the confusion-matrix derived counts. -/
theorem summary_eq_map (gold pred : List Span) :
    summary gold pred = (real_labels gold pred).map (fun l =>
      (l, cm_cell gold pred l l,
          col_sum gold pred l - cm_cell gold pred l l,
          row_sum gold pred l - cm_cell gold pred l l)) := by
  rw [summary, labels, List.filterMap_append]
  rw [filterMap_skip_sentinel _ _ (fun l hl => mem_real_labels_ne_sentinel hl)]
  simp

/-- Permuting the predictions permutes the `y_true`/`y_pred` pair
stream: the gold-driven part is unchanged (it only tests membership)
and the false-positive tail is permuted along. -/
theorem label_pairs_perm (gold : List Span) {pred pred' : List Span}
    (h : pred'.Perm pred) :
    (label_pairs gold pred').Perm (label_pairs gold pred) := by
  have hmem : ∀ x : Span, x ∈ pred' ↔ x ∈ pred := fun x => h.mem_iff
  rw [label_pairs, label_pairs]
  refine List.Perm.append ?_ ((h.filter _).map _)
  simp only [hmem]
  exact List.Perm.refl _

/-- Permuting the predictions leaves every confusion-matrix cell
unchanged. -/
theorem cm_cell_perm (gold : List Span) {pred pred' : List Span}
    (h : pred'.Perm pred) (t q : String) :
    cm_cell gold pred' t q = cm_cell gold pred t q :=
  (label_pairs_perm gold h).countP_eq _

/-- Permuting the predictions leaves the sorted real-label axis
unchanged. -/
theorem real_labels_perm (gold : List Span) {pred pred' : List Span}
    (h : pred'.Perm pred) :
    real_labels gold pred' = real_labels gold pred := by
  have hp := label_pairs_perm gold h
  have hd : ((y_true gold pred' ++ y_pred gold pred').filter (fun l => l != "O")).dedup.Perm
      ((y_true gold pred ++ y_pred gold pred).filter (fun l => l != "O")).dedup := by
    rw [y_true, y_true, y_pred, y_pred]
    exact (((hp.map _).append (hp.map _)).filter _).dedup
  rw [real_labels, real_labels]
  exact List.eq_of_perm_of_sorted
    (((List.perm_insertionSort _ _).trans hd).trans (List.perm_insertionSort _ _).symm)
    (List.sorted_insertionSort _ _) (List.sorted_insertionSort _ _)

/-!  ## Claim theorems  -/

/-- C1: the claim expects multiset matching (`min(N,M)` TP,
`max(0,M-N)` FP, `max(0,N-M)` Missed), with 1 TP and 1 Missed on gold
`[(0,5,"A"),(0,5,"A")]` vs prediction `[(0,5,"A")]`.  The code's
set-based bookkeeping disagrees there: the single prediction is TP,
the missed list is empty, and the per-label table reports `TP = 2`,
`FP = 0`, `FN = 0` because both duplicate gold occurrences count as
matched. -/
theorem c1_duplicate_spans_set_semantics :
    pred_status [((0:Nat),5,"A"), ((0:Nat),5,"A")] [((0:Nat),5,"A")] = ["TP"] ∧
    fn_entities [((0:Nat),5,"A"), ((0:Nat),5,"A")] [((0:Nat),5,"A")] = [] ∧
    summary [((0:Nat),5,"A"), ((0:Nat),5,"A")] [((0:Nat),5,"A")] = [("A", 2, 0, 0)] := by
  decide

/-- C2: the claim expects the missed-entities list to hold exactly the
unmatched gold occurrences.  In the code the list is empty for every
input — its filter requires a gold span not to belong to
`gold_set.intersection(gold_set)` — even when a gold span is missed,
as on gold `[(0,5,"A")]` with no predictions, where the per-label
table itself records one false negative. -/
theorem c2_missed_list_always_empty :
    (∀ gold pred : List Span, fn_entities gold pred = []) ∧
    summary [((0:Nat),5,"A")] ([] : List Span) = [("A", 0, 0, 1)] :=
  ⟨fn_entities_eq_nil, by decide⟩

/-- C3: conservation (`TP + FP` = number of predicted spans of the
label) fails on the code for duplicated gold spans: on gold
`[(0,5,"A"),(0,5,"A")]` vs prediction `[(0,5,"A")]` the summary row
for `"A"` is `TP = 2`, `FP = 0`, yet only one span with label `"A"`
was predicted.  (`TP + FN` = gold count does hold there: `2 + 0 = 2`.) -/
theorem c3_conservation_fails_on_code :
    summary [((0:Nat),5,"A"), ((0:Nat),5,"A")] [((0:Nat),5,"A")] = [("A", 2, 0, 0)] ∧
    ([((0:Nat),5,"A"), ((0:Nat),5,"A")] : List Span).countP (fun s => label s == "A") = 2 ∧
    ([((0:Nat),5,"A")] : List Span).countP (fun s => label s == "A") = 1 ∧
    2 + 0 ≠ ([((0:Nat),5,"A")] : List Span).countP (fun s => label s == "A") := by
  decide

/-- C4: the reported per-label counts are exactly the
confusion-table derivation for every real label on the axis: one row
per real label (the sentinel `"O"` is skipped), with
`TP = confusion[L][L]`, `FP` = column sum minus the diagonal and
`FN` = row sum minus the diagonal. -/
theorem c4_summary_from_confusion (gold pred : List Span) :
    summary gold pred = (real_labels gold pred).map (fun l =>
      (l, cm_cell gold pred l l,
          col_sum gold pred l - cm_cell gold pred l l,
          row_sum gold pred l - cm_cell gold pred l l)) :=
  summary_eq_map gold pred

/-- C5: permuting the prediction sequence changes none of the
confusion-matrix cells, the label axis, the per-label TP/FP/FN
summary, or the derived precision/recall/F1 metrics. -/
theorem c5_metrics_order_independent (gold pred pred' : List Span)
    (h : pred'.Perm pred) :
    (∀ t q, cm_cell gold pred' t q = cm_cell gold pred t q) ∧
    labels gold pred' = labels gold pred ∧
    summary gold pred' = summary gold pred ∧
    per_label_prf gold pred' = per_label_prf gold pred ∧
    micro_prf gold pred' = micro_prf gold pred ∧
    avg_prf gold pred' = avg_prf gold pred := by
  have hc : ∀ t q, cm_cell gold pred' t q = cm_cell gold pred t q := cm_cell_perm gold h
  have hr : real_labels gold pred' = real_labels gold pred := real_labels_perm gold h
  have hl : labels gold pred' = labels gold pred := by rw [labels, labels, hr]
  have hcol : ∀ q, col_sum gold pred' q = col_sum gold pred q := by
    intro q; rw [col_sum, col_sum, hl]; simp only [hc]
  have hrow : ∀ t, row_sum gold pred' t = row_sum gold pred t := by
    intro t; rw [row_sum, row_sum, hl]; simp only [hc]
  have hs : summary gold pred' = summary gold pred := by
    rw [summary, summary, hl]; simp only [hc, hcol, hrow]
  have hplf : per_label_prf gold pred' = per_label_prf gold pred := by
    rw [per_label_prf, per_label_prf, hr]; simp only [hc, hcol, hrow]
  refine ⟨hc, hl, hs, hplf, ?_, ?_⟩
  · rw [micro_prf, micro_prf, hr]; simp only [hc, hcol, hrow]
  · rw [avg_prf, avg_prf, hr, hplf]

/-- Witness for C5 at a concrete permuted pair of prediction lists. -/
theorem c5_metrics_order_independent_witness :
    ([((2:Nat),3,"B"), ((0:Nat),1,"A")] : List Span).Perm
      [((0:Nat),1,"A"), ((2:Nat),3,"B")] ∧
    summary [((0:Nat),1,"A")] [((2:Nat),3,"B"), ((0:Nat),1,"A")] =
      summary [((0:Nat),1,"A")] [((0:Nat),1,"A"), ((2:Nat),3,"B")] :=
  ⟨List.Perm.swap ((0:Nat),1,"A") ((2:Nat),3,"B") [],
   (c5_metrics_order_independent [((0:Nat),1,"A")]
      [((0:Nat),1,"A"), ((2:Nat),3,"B")] [((2:Nat),3,"B"), ((0:Nat),1,"A")]
      (List.Perm.swap ((0:Nat),1,"A") ((2:Nat),3,"B") [])).2.2.1⟩

/-- C6: with an empty gold set every prediction's status is `"FP"`,
and on gold `[]` vs prediction `[(0,3,"X")]` the per-label table for
`"X"` is `TP = 0`, `FP = 1`, `FN = 0` with precision and recall both
`0`. -/
theorem c6_empty_gold_all_fp :
    (∀ pred : List Span, pred_status [] pred = pred.map (fun _ => "FP")) ∧
    summary ([] : List Span) [((0:Nat),3,"X")] = [("X", 0, 1, 0)] ∧
    per_label_prf ([] : List Span) [((0:Nat),3,"X")] = [("X", 0, 0, 0)] := by
  refine ⟨pred_status_nil_gold, by decide, ?_⟩
  have h1 : real_labels ([] : List Span) [((0:Nat),3,"X")] = ["X"] := by decide
  have h2 : cm_cell ([] : List Span) [((0:Nat),3,"X")] "X" "X" = 0 := by decide
  have h3 : col_sum ([] : List Span) [((0:Nat),3,"X")] "X" = 1 := by decide
  have h4 : row_sum ([] : List Span) [((0:Nat),3,"X")] "X" = 0 := by decide
  norm_num [per_label_prf, h1, h2, h3, h4, prec_frac, rec_frac, f1_frac]

/-- C7: the claim expects malformed gold records to be rejected before
matching.  The code has no validation: `load_spans` passes a record
with `start >= end` through unchanged — where the spec-modelled
validating loader reports a failure — and `evaluate` proceeds to score
it as an ordinary span. -/
theorem c7_no_validation_of_gold_records :
    validSpan 10 ((5:Nat), 2, "A") = false ∧
    load_spans [((5:Nat),2,"A")] = [((5:Nat),2,"A")] ∧
    load_spans_spec 10 [((5:Nat),2,"A")] = none ∧
    summary [((5:Nat),2,"A")] ([] : List Span) = [("A", 0, 0, 1)] := by
  decide

/-- C8: the claim expects all-zero metrics on empty gold and empty
predictions.  The bookkeeping is indeed empty/zero — the label axis is
just the sentinel, every confusion cell is `0`, the per-label summary
and report are empty, and the guarded pooled metrics are zero — but
the report's macro-average row is NaN (`none`), not zero: averaging
the empty per-label array is not guarded by `zero_division=0`. -/
theorem c8_empty_inputs_macro_average_undefined :
    labels ([] : List Span) ([] : List Span) = ["O"] ∧
    (∀ t q : String, cm_cell ([] : List Span) ([] : List Span) t q = 0) ∧
    summary ([] : List Span) ([] : List Span) = [] ∧
    per_label_prf ([] : List Span) ([] : List Span) = [] ∧
    micro_prf ([] : List Span) ([] : List Span) = (0, 0, 0) ∧
    avg_prf ([] : List Span) ([] : List Span) = none := by
  have h1 : real_labels ([] : List Span) ([] : List Span) = [] := by decide
  refine ⟨by decide, fun t q => rfl, by decide, by decide, ?_, ?_⟩
  · norm_num [micro_prf, h1, prec_frac, rec_frac, f1_frac]
  · norm_num [avg_prf, h1]

/-- C9: exact-triple matching only ever pairs a real label with itself
or with the sentinel, so every off-diagonal confusion cell between two
distinct real labels is zero. -/
theorem c9_offdiagonal_cells_zero (gold pred : List Span) (L1 L2 : String)
    (h12 : L1 ≠ L2) (h1 : L1 ≠ "O") (h2 : L2 ≠ "O") :
    cm_cell gold pred L1 L2 = 0 := by
  rw [cm_cell, List.countP_eq_zero]
  intro r hr
  simp only [decide_eq_true_eq]
  rw [label_pairs, List.mem_append] at hr
  rcases hr with hr | hr
  · obtain ⟨g, -, hg⟩ := List.mem_map.mp hr
    by_cases hc : g ∈ gold ∧ g ∈ pred
    · rw [if_pos hc] at hg
      subst hg
      exact fun he => h12 (he.1.symm.trans he.2)
    · rw [if_neg hc] at hg
      subst hg
      exact fun he => h2 he.2.symm
  · obtain ⟨p, -, hp⟩ := List.mem_map.mp hr
    subst hp
    exact fun he => h1 he.1.symm

/-- Witness for C9 on a concrete gold/prediction pair and the label
pair `("A","B")`. -/
theorem c9_offdiagonal_cells_zero_witness :
    ("A" ≠ "B" ∧ "A" ≠ "O" ∧ "B" ≠ "O") ∧
    cm_cell [((0:Nat),1,"A")] [((0:Nat),2,"B")] "A" "B" = 0 :=
  ⟨⟨by decide, by decide, by decide⟩,
   c9_offdiagonal_cells_zero [((0:Nat),1,"A")] [((0:Nat),2,"B")] "A" "B"
     (by decide) (by decide) (by decide)⟩

/-- C10: a span labelled with the literal string `"O"` is conflated
with the sentinel: `"O"` never appears on the real-label axis nor as a
row of the per-label summary, and a document whose only gold and
predicted span carry label `"O"` yields an empty real-label axis and
an empty summary. -/
theorem c10_sentinel_label_conflated :
    (∀ gold pred : List Span,
        (real_labels gold pred).all (fun l => l != "O") = true ∧
        (summary gold pred).all (fun r => r.1 != "O") = true) ∧
    real_labels [((0:Nat),2,"O")] [((0:Nat),2,"O")] = [] ∧
    summary [((0:Nat),2,"O")] [((0:Nat),2,"O")] = [] := by
  refine ⟨fun gold pred => ⟨?_, ?_⟩, by decide, by decide⟩
  · rw [List.all_eq_true]
    intro l hl
    simpa using mem_real_labels_ne_sentinel hl
  · rw [summary_eq_map, List.all_eq_true]
    intro r hr
    obtain ⟨l, hl, rfl⟩ := List.mem_map.mp hr
    simpa using mem_real_labels_ne_sentinel hl

end NerEval
